import Mathlib

/-
  Verification development for the feishu-diary-bot repository.

  Shallow embedding of the event-ingest / session-state / composition /
  publish pipeline, translated from the Python sources:
    src/api/webhook.py, src/services/conversation_service.py,
    src/services/diary_service.py, src/services/llm_service.py,
    src/services/feishu_doc_service.py, src/handlers/text_handler.py.

  External library behaviour that the sources rely on is embedded from the
  corresponding public specifications: CPython string / dict / slicing
  semantics, base64.b64decode on str input (the ASCII re-encoding check
  followed by the non-strict decoding loop), UTF-8 encoding and strict
  decoding, SHA-256 (FIPS 180-4), AES-256 in CBC mode (FIPS 197), and
  json.loads (acceptance-exact; see the parser section for the two
  documented value-representation approximations).
-/

/-! ## Python string primitives -/

/-- Exactly the code points for which CPython `str.isspace` holds; this is
the character set removed by `str.strip()`. -/
def pyIsSpaceChar (c : Char) : Bool :=
  c.toNat = 0x9 ∨ c.toNat = 0xa ∨ c.toNat = 0xb ∨ c.toNat = 0xc ∨
  c.toNat = 0xd ∨ c.toNat = 0x1c ∨ c.toNat = 0x1d ∨ c.toNat = 0x1e ∨
  c.toNat = 0x1f ∨ c.toNat = 0x20 ∨ c.toNat = 0x85 ∨ c.toNat = 0xa0 ∨
  c.toNat = 0x1680 ∨ (0x2000 ≤ c.toNat ∧ c.toNat ≤ 0x200a) ∨
  c.toNat = 0x2028 ∨ c.toNat = 0x2029 ∨ c.toNat = 0x202f ∨
  c.toNat = 0x205f ∨ c.toNat = 0x3000

/-- CPython `str.strip()` on a list of characters. -/
def pyStripL (l : List Char) : List Char :=
  ((l.dropWhile pyIsSpaceChar).reverse.dropWhile pyIsSpaceChar).reverse

/-- CPython `str.strip()`. -/
def pyStrip (s : String) : String :=
  ⟨pyStripL s.data⟩

/-- Does the second list start with the first one?  CPython
`str.startswith` on exploded strings. -/
def startsWithL : List Char → List Char → Bool
  | [], _ => true
  | _ :: _, [] => false
  | p :: ps, c :: cs => p = c && startsWithL ps cs

/-- CPython `str.startswith`. -/
def pyStartsWith (s pre : String) : Bool :=
  startsWithL pre.data s.data

/-- Does the first list occur contiguously inside the second one? -/
def occursIn (needle : List Char) : List Char → Bool
  | [] => needle.isEmpty
  | c :: cs => startsWithL needle (c :: cs) || occursIn needle cs

/-- CPython substring membership `needle in hay`. -/
def pyIn (needle hay : String) : Bool :=
  occursIn needle.data hay.data

/-- CPython `str.lower()` restricted to the ASCII letters; all characters
appearing in the fixed keyword lists of the sources are unaffected by any
case mapping, so this restriction does not change any statement below. -/
def pyLowerChar (c : Char) : Char :=
  if 65 ≤ c.toNat ∧ c.toNat ≤ 90 then Char.ofNat (c.toNat + 32) else c

/-- CPython `str.lower()` (ASCII restriction, see `pyLowerChar`). -/
def pyLower (s : String) : String :=
  ⟨s.data.map pyLowerChar⟩

/-- CPython `str.split(sep)` for a one-character separator: no collapsing
of empty fields, the empty string yields one empty field. -/
def splitOnChar (sep : Char) : List Char → List (List Char)
  | [] => [[]]
  | c :: cs =>
    if c = sep then
      [] :: splitOnChar sep cs
    else
      match splitOnChar sep cs with
      | [] => [[c]]
      | f :: fs => (c :: f) :: fs

/-- CPython slice `s[:len(s) - n]` for `n = pad`: removing the trailing
`pad` elements, everything when `pad` is zero or at least the length
(CPython `s[:-pad]` with `-0 = 0`, and a negative start clamped). -/
def pyDropTail (pad : Nat) (l : List α) : List α :=
  if pad = 0 then [] else l.take (l.length - pad)

/-! ## JSON values (the result of `json.loads`) -/

/-- A parsed JSON document.  An integer numeral becomes an
arbitrary-precision integer (a Python int); a numeral with a fraction or
exponent, and the NaN / Infinity constants that json.loads accepts by
default, become Python floats — carried here as the exact decimal value
m × 10^e of the numeral (`fnum`), or as the two special constants.
Acceptance and every value are exact; only equality between two distinct
numerals that round to the same IEEE double differs from the Python
float semantics, and no document considered in this development carries
such a pair. -/
inductive Json where
  | null
  | bool (b : Bool)
  | num (n : Int)
  | fnum (m e : Int)
  | nan
  | inf (neg : Bool)
  | str (s : String)
  | arr (xs : List Json)
  | obj (kvs : List (String × Json))
deriving Repr

/-- Exact equality of the decimal values m1 × 10^e1 and m2 × 10^e2. -/
def decEqPow10 (m1 e1 m2 e2 : Int) : Bool :=
  m1 * 10 ^ (e1 - min e1 e2).toNat = m2 * 10 ^ (e2 - min e1 e2).toNat

/-- The numeric reading of a parsed JSON value, for CPython `==`: bool is
an int subclass, so True compares equal to 1 and to 1.0; NaN and the
infinities are handled separately. -/
def Json.numView : Json → Option (Int × Int)
  | .bool b => some (if b then 1 else 0, 0)
  | .num n => some (n, 0)
  | .fnum m e => some (m, e)
  | _ => none

mutual

/-- CPython `==` on parsed JSON values: structural on null, strings,
lists and dicts; numeric across bool / int / float (True == 1, 1 == 1.0);
NaN equal to nothing, the infinities equal by sign. -/
def Json.beq : Json → Json → Bool
  | .null, .null => true
  | .nan, _ => false
  | _, .nan => false
  | .inf s1, .inf s2 => s1 = s2
  | .str a, .str b => a = b
  | .arr a, .arr b => Json.beqList a b
  | .obj a, .obj b => Json.beqKvs a b
  | a, b =>
    match a.numView, b.numView with
    | some (m1, e1), some (m2, e2) => decEqPow10 m1 e1 m2 e2
    | _, _ => false

/-- CPython `==` on lists of parsed JSON values. -/
def Json.beqList : List Json → List Json → Bool
  | [], [] => true
  | x :: xs, y :: ys => Json.beq x y && Json.beqList xs ys
  | _, _ => false

/-- CPython `==` on key-value lists of parsed JSON objects. -/
def Json.beqKvs : List (String × Json) → List (String × Json) → Bool
  | [], [] => true
  | (k1, v1) :: xs, (k2, v2) :: ys =>
    k1 = k2 && Json.beq v1 v2 && Json.beqKvs xs ys
  | _, _ => false

end

instance : BEq Json := ⟨Json.beq⟩

/-! ## Session store: ConversationService.add_message -/

/-- One entry of the `messages` JSON column of the `conversation` table:
a role, a content and the `datetime.now().isoformat()` timestamp (modelled
as a number). -/
structure ChatMsg where
  role : String
  content : String
  timestamp : Nat
deriving DecidableEq, Repr

/-- The message-list transformation performed by
`ConversationService.add_message` (conversation_service.py, lines 153-197)
on the stored list of the active session: append the new entry with the
current timestamp, and when the resulting count exceeds 20 keep all
`system` entries followed by the last 18 non-`system` entries. -/
def ConversationService.add_message (messages : List ChatMsg)
    (role content : String) (now : Nat) : List ChatMsg :=
  let appended := messages ++ [{ role := role, content := content, timestamp := now }]
  if 20 < appended.length then
    appended.filter (fun m => m.role = "system") ++
      (let other := appended.filter (fun m => ¬ m.role = "system")
       other.drop (other.length - 18))
  else
    appended

/-! ## Dedup cache: webhook.is_duplicate_message -/

/-- Can a parsed JSON value be a CPython dict key (is it hashable)?
Lists and dicts are unhashable; using them as a key raises `TypeError`. -/
def Json.hashable : Json → Bool
  | .arr _ => false
  | .obj _ => false
  | _ => true

/-- A raised CPython exception, when only the fact that something was
raised matters to the caller. -/
inductive PyErr where
  | exc
deriving DecidableEq, Repr

/-- The `processed_messages` module-level dict of webhook.py: message id
(any hashable parsed value) to the `time.time()` at which it was first
seen.  A CPython dict with these keys is an association list with pairwise
distinct keys, in insertion order. -/
abbrev DedupState := List (Json × Nat)

/-- `is_duplicate_message` (webhook.py, lines 98-121): drop every entry
recorded more than 300 seconds ago, report whether the id is present, and
record it at the current time when absent.  An unhashable id raises on
the hash lookup, after the purge has already mutated the dict. -/
def is_duplicate_message (state : DedupState) (message_id : Json)
    (now : Nat) : Except PyErr Bool × DedupState :=
  let kept : DedupState := state.filter (fun e => ¬ 300 < now - e.2)
  if message_id.hashable then
    if kept.any (fun e => e.1 == message_id) then
      (.ok true, kept)
    else
      (.ok false, kept ++ [(message_id, now)])
  else
    (.error .exc, kept)

/-! ## Diary store: DiaryService -/

/-- One row of the `diaries` table, with the columns this development
uses; `document_id` is NULL (`none`) when publishing failed. -/
structure DiaryRow where
  id : String
  user_id : String
  title : String
  content : String
  summary : String
  tags : List String
  images : List (Option String)
  document_id : Option String
deriving DecidableEq, Repr

/-- The `diaries` table is a list of rows with pairwise distinct ids
(`id` is the primary key). -/
abbrev DiaryStore := List DiaryRow

/-- `DiaryService.delete_diary`, the effective (second) definition
(diary_service.py, lines 261-286): DELETE the row, succeed exactly when
`cursor.rowcount` is positive, and never raise.  The first definition of
the same name at lines 212-232 is shadowed by this one. -/
def DiaryService.delete_diary (store : DiaryStore) (diary_id : String) :
    Bool × DiaryStore :=
  let remaining := store.filter (fun d => ¬ d.id = diary_id)
  (remaining.length < store.length, remaining)

/-- `DiaryService.get_diaries_by_document_id` (diary_service.py, lines
178-210): the rows whose `document_id` column equals the given token.
The webhook passes the raw parsed `file_token`; binding a non-string
parameter either raises inside the guarded block (unhashable shapes) or
compares a non-TEXT value against a TEXT column, and in both cases the
function yields no row. -/
def DiaryService.get_diaries_by_document_id (store : DiaryStore)
    (file_token : Json) : List DiaryRow :=
  match file_token with
  | .str s => store.filter (fun d => d.document_id = some s)
  | _ => []

/-- `DiaryService.save_diary` (diary_service.py, lines 48-91):
INSERT OR REPLACE of the row keyed by the diary id. -/
def DiaryService.save_diary (store : DiaryStore) (row : DiaryRow) :
    DiaryStore :=
  store.filter (fun d => ¬ d.id = row.id) ++ [row]

/-! ## LLM service: intent analysis and the live-lookup heuristic -/

/-- The shape returned by `LLMService.analyze_intent`: the `type` field. -/
inductive IntentType where
  | chat
  | end_
  | command
deriving DecidableEq, Repr

/-- The dict returned by `LLMService.analyze_intent`. -/
structure Intent where
  type : IntentType
  should_generate_diary : Bool
deriving DecidableEq, Repr

/-- The fixed finish-keyword list of `analyze_intent`
(llm_service.py, line 319). -/
def end_keywords : List String :=
  ["结束", "完成", "整理", "生成日记", "好了", "就这样", "总结", "帮我总结", "整理日记"]

/-- `LLMService.analyze_intent` (llm_service.py, lines 300-328): start
from `chat`; switch to `end_` and set the diary flag when the lowercased
message contains a finish keyword; finally switch to `command` when the
raw message starts with a slash. -/
def analyze_intent (message : String) : Intent :=
  let message_lower := pyLower message
  let intent : Intent := { type := .chat, should_generate_diary := false }
  let intent :=
    if end_keywords.any (fun kw => pyIn kw message_lower) then
      { type := .end_, should_generate_diary := true }
    else intent
  if pyStartsWith message "/" then { intent with type := .command } else intent

/-- A role-and-content pair as sent to the chat-completion API. -/
structure LlmMsg where
  role : String
  content : String
deriving DecidableEq, Repr

/-- `LLMService.get_current_date_info` reads the wall clock; its result is
passed in as a parameter below. -/
def search_keywords : List String :=
  ["天气", "新闻", "今天", "现在", "最新", "股价", "汇率", "时间", "几号", "日期"]

/-- `LLMService.search_web` (llm_service.py, lines 38-62): pure date
arithmetic on the current-date string, no real web access. -/
def search_web (dateInfo query : String) : String :=
  if pyIn "天气" query then
    dateInfo ++ "。由于天气查询需要定位信息，建议查看手机天气应用获取准确的当地天气。"
  else if pyIn "几号" query || pyIn "日期" query || pyIn "时间" query || pyIn "今天" query then
    dateInfo
  else
    dateInfo ++ "。其他实时信息建议查看相关应用或网站。"

/-- The latest user turn: the first entry of role `user` scanning the
list in reverse, the empty string when there is none
(llm_service.py, lines 76-80). -/
def last_user_message (messages : List LlmMsg) : String :=
  match (messages.reverse.find? (fun m => m.role = "user")) with
  | some m => m.content
  | none => ""

/-- The transcript actually sent to the model by
`LLMService.chat_with_internet` (llm_service.py, lines 64-107): when the
latest user turn contains a lookup keyword and has fewer than 100
characters, a synthetic search-result system note is appended; otherwise
the transcript is passed unchanged. -/
def chat_with_internet_sent (dateInfo : String) (messages : List LlmMsg) :
    List LlmMsg :=
  let last_message := last_user_message messages
  let need_search := search_keywords.any (fun kw => pyIn kw last_message)
  if need_search ∧ last_message.length < 100 then
    messages ++ [{ role := "system",
                   content := "联网搜索结果：" ++ search_web dateInfo last_message }]
  else
    messages

/-! ## Document publisher: block conversion -/

/-- A structural unit of the remote document, as built by
`FeishuDocService._convert_content_to_blocks`: `block_type` 3/4/5 are the
three heading levels, `block_type` 2 is a plain text paragraph. -/
inductive Block where
  | heading1 (text : String)
  | heading2 (text : String)
  | heading3 (text : String)
  | paragraph (text : String)
deriving DecidableEq, Repr

/-- The per-line rule of `_convert_content_to_blocks`
(feishu_doc_service.py, lines 136-170), after stripping: a blank line
yields no block, a line starting with hash-space / hash-hash-space /
hash-hash-hash-space yields the heading of that level carrying the rest of
the line, and every other line yields a paragraph block. -/
def line_to_block (line : List Char) : Option Block :=
  let line := pyStripL line
  if line.isEmpty then none
  else if startsWithL ['#', ' '] line then
    some (.heading1 ⟨line.drop 2⟩)
  else if startsWithL ['#', '#', ' '] line then
    some (.heading2 ⟨line.drop 3⟩)
  else if startsWithL ['#', '#', '#', ' '] line then
    some (.heading3 ⟨line.drop 4⟩)
  else
    some (.paragraph ⟨line⟩)

/-- `FeishuDocService._convert_content_to_blocks` (feishu_doc_service.py,
lines 131-172): split on newlines and convert line by line. -/
def convert_content_to_blocks (content : String) : List Block :=
  (splitOnChar '\n' content.data).filterMap line_to_block

/-! ## Text handler: generate_diary -/

/-- One entry of the pending-media buffer (`media_files` column), as built
by the media handler: a kind tag, source identifiers and, for videos, a
possible url (images carry no `url` key, so `get` yields `None`). -/
structure MediaInfo where
  type : String
  file_name : String
  image_key : String
  message_id : String
  url : Option String
deriving DecidableEq, Repr

/-- The result of `create_or_update_diary_document` when the remote
document was created. -/
structure PublishResult where
  document_id : String
  url : String
deriving DecidableEq, Repr

/-- The per-user state touched by `TextHandler.generate_diary`: the active
session (messages, pending media, open or closed) and the diaries table. -/
structure HandlerState where
  messages : List ChatMsg
  media_files : List MediaInfo
  session_active : Bool
  diaries : DiaryStore
deriving DecidableEq, Repr

/-- An outward-visible action of `TextHandler.generate_diary`, in program
order: the language-model composition call, the media-buffer clear, the
remote-document creation attempt, a chat reply, the session close. -/
inductive Effect where
  | llm_generate_diary
  | clear_media_files
  | create_diary_document (title content : String) (images : List MediaInfo)
  | send_text (user_id text : String)
  | close_session
deriving DecidableEq, Repr

/-- The reply text assembled at text_handler.py lines 197-218. -/
def diary_reply (diary_content : String) (doc_result : Option PublishResult)
    (media_files : List MediaInfo) : String :=
  let docPart :=
    match doc_result with
    | some r => "已保存到飞书文档：" ++ r.url ++ "\n\n"
    | none => "（飞书文档保存失败，请联系管理员）\n\n"
  let mediaPart :=
    if media_files.isEmpty then ""
    else "\n\n媒体文件：" ++ toString media_files.length ++ " 个已保存"
  "今天的日记整理好了！\n\n" ++ docPart ++ diary_content ++ mediaPart ++
    "\n\n提示：使用 /new 可以开始记录新的日记"

/-- `TextHandler.generate_diary` (text_handler.py, lines 122-236) over an
existing active session.  The language-model output and the outcome of the
remote-document creation are external inputs (`diary_content`,
`doc_result`), as are the generated diary id and the current date.  When
the context holds at most the persona message, a prompting reply is sent
and nothing else happens; otherwise the pipeline runs: compose, snapshot
media, clear the media buffer, attempt the document, save the diary row,
reply, and close the session. -/
def TextHandler.generate_diary (user_id : String) (st : HandlerState)
    (diary_content : String) (doc_result : Option PublishResult)
    (diary_id today : String) : HandlerState × List Effect × Nat :=
  let context := st.messages
  if context.length ≤ 1 then
    (st, [.send_text user_id "还没有记录今天的事情呢，先和我聊聊今天发生了什么吧~"], 0)
  else
    let media_files := st.media_files
    let title := "日记 - " ++ today
    let summary :=
      if 100 < diary_content.length then
        ⟨diary_content.data.take 100⟩ ++ "..."
      else diary_content
    let image_info_list := media_files.filter (fun m => m.type = "image")
    let image_urls := (media_files.filter (fun m => m.type = "image")).map (·.url)
    let row : DiaryRow :=
      { id := diary_id, user_id := user_id, title := title,
        content := diary_content, summary := summary,
        tags := ["日记", today], images := image_urls,
        document_id := doc_result.map (·.document_id) }
    let st1 : HandlerState :=
      { messages := st.messages, media_files := [],
        session_active := false,
        diaries := DiaryService.save_diary st.diaries row }
    (st1,
     [.llm_generate_diary,
      .clear_media_files,
      .create_diary_document title diary_content image_info_list,
      .send_text user_id (diary_reply diary_content doc_result media_files),
      .close_session],
     0)


/-! ## Crypto gate: SHA-256, AES-256-CBC, base64, UTF-8

The webhook derives its AES key as `hashlib.sha256(secret).digest()` and
decrypts with `Crypto.Cipher.AES` in CBC mode; these primitives are
embedded from their public specifications (FIPS 180-4, FIPS 197, and the
CPython non-strict `base64.b64decode` / strict UTF-8 codec behaviour). -/

/-- Rotate a 32-bit word right. -/
def rotr32 (x n : Nat) : Nat :=
  ((x >>> n) ||| (x <<< (32 - n))) % 2 ^ 32

/-- Big-endian bytes of a number, with a fixed width. -/
def natToBeBytes (width n : Nat) : List Nat :=
  (List.range width).map (fun i => n / 2 ^ (8 * (width - 1 - i)) % 256)

/-- Big-endian bytes of a 32-bit word. -/
def wordToBeBytes (w : Nat) : List Nat :=
  natToBeBytes 4 w

/-- Pack bytes into big-endian 32-bit words, four at a time. -/
def beBytesToWords (bs : List Nat) : List Nat :=
  (List.range (bs.length / 4)).map
    (fun i => ((bs.getD (4*i) 0) <<< 24) ||| ((bs.getD (4*i+1) 0) <<< 16) |||
              ((bs.getD (4*i+2) 0) <<< 8) ||| bs.getD (4*i+3) 0)

/-- Split a list into consecutive chunks of the given size. -/
def chunked (n : Nat) (l : List α) : List (List α) :=
  (List.range ((l.length + n - 1) / n)).map (fun i => (l.drop (n * i)).take n)

/-- The SHA-256 round constants (FIPS 180-4). -/
def sha256K : List Nat := [
  1116352408, 1899447441, 3049323471, 3921009573, 961987163, 1508970993, 2453635748,
  2870763221, 3624381080, 310598401, 607225278, 1426881987, 1925078388, 2162078206,
  2614888103, 3248222580, 3835390401, 4022224774, 264347078, 604807628, 770255983,
  1249150122, 1555081692, 1996064986, 2554220882, 2821834349, 2952996808, 3210313671,
  3336571891, 3584528711, 113926993, 338241895, 666307205, 773529912, 1294757372,
  1396182291, 1695183700, 1986661051, 2177026350, 2456956037, 2730485921, 2820302411,
  3259730800, 3345764771, 3516065817, 3600352804, 4094571909, 275423344, 430227734,
  506948616, 659060556, 883997877, 958139571, 1322822218, 1537002063, 1747873779,
  1955562222, 2024104815, 2227730452, 2361852424, 2428436474, 2756734187, 3204031479,
  3329325298]

/-- The SHA-256 initial hash value (FIPS 180-4). -/
def sha256H0 : List Nat :=
  [1779033703, 3144134277, 1013904242, 2773480762,
   1359893119, 2600822924, 528734635, 1541459225]

/-- SHA-256 message padding: a 1 bit, zeros, and the 64-bit length. -/
def sha256Pad (msg : List Nat) : List Nat :=
  msg ++ [0x80] ++ List.replicate ((64 - (msg.length + 9) % 64) % 64) 0 ++
    natToBeBytes 8 (8 * msg.length)

/-- One step of the SHA-256 message-schedule extension. -/
def sha256ExtendStep (ws : List Nat) : Nat :=
  let n := ws.length
  let w15 := ws.getD (n - 15) 0
  let w2 := ws.getD (n - 2) 0
  let s0 := rotr32 w15 7 ^^^ rotr32 w15 18 ^^^ (w15 >>> 3)
  let s1 := rotr32 w2 17 ^^^ rotr32 w2 19 ^^^ (w2 >>> 10)
  (ws.getD (n - 16) 0 + s0 + ws.getD (n - 7) 0 + s1) % 2 ^ 32

/-- The full 64-word SHA-256 message schedule of one 64-byte chunk. -/
def sha256Schedule (chunk : List Nat) : List Nat :=
  (List.range 48).foldl (fun ws _ => ws ++ [sha256ExtendStep ws]) (beBytesToWords chunk)

/-- One SHA-256 compression round on the eight working words. -/
def sha256Round (st : List Nat) (kw : Nat × Nat) : List Nat :=
  let a := st.getD 0 0
  let b := st.getD 1 0
  let c := st.getD 2 0
  let d := st.getD 3 0
  let e := st.getD 4 0
  let f := st.getD 5 0
  let g := st.getD 6 0
  let hh := st.getD 7 0
  let s1 := rotr32 e 6 ^^^ rotr32 e 11 ^^^ rotr32 e 25
  let ch := (e &&& f) ^^^ ((e ^^^ 0xffffffff) &&& g)
  let t1 := (hh + s1 + ch + kw.1 + kw.2) % 2 ^ 32
  let s0 := rotr32 a 2 ^^^ rotr32 a 13 ^^^ rotr32 a 22
  let maj := (a &&& b) ^^^ (a &&& c) ^^^ (b &&& c)
  let t2 := (s0 + maj) % 2 ^ 32
  [(t1 + t2) % 2 ^ 32, a, b, c, (d + t1) % 2 ^ 32, e, f, g]

/-- SHA-256 compression of one chunk into the running hash. -/
def sha256Compress (h : List Nat) (chunk : List Nat) : List Nat :=
  let final := (sha256K.zip (sha256Schedule chunk)).foldl sha256Round h
  List.zipWith (fun x y => (x + y) % 2 ^ 32) h final

/-- SHA-256 of a byte string, as 32 bytes (hashlib.sha256().digest()). -/
def sha256 (msg : List Nat) : List Nat :=
  (((chunked 64 (sha256Pad msg)).foldl sha256Compress sha256H0).map wordToBeBytes).flatten


/-- The AES S-box (FIPS 197). -/
def aesSbox : List Nat := [
  99, 124, 119, 123, 242, 107, 111, 197, 48, 1, 103, 43,
  254, 215, 171, 118, 202, 130, 201, 125, 250, 89, 71, 240,
  173, 212, 162, 175, 156, 164, 114, 192, 183, 253, 147, 38,
  54, 63, 247, 204, 52, 165, 229, 241, 113, 216, 49, 21,
  4, 199, 35, 195, 24, 150, 5, 154, 7, 18, 128, 226,
  235, 39, 178, 117, 9, 131, 44, 26, 27, 110, 90, 160,
  82, 59, 214, 179, 41, 227, 47, 132, 83, 209, 0, 237,
  32, 252, 177, 91, 106, 203, 190, 57, 74, 76, 88, 207,
  208, 239, 170, 251, 67, 77, 51, 133, 69, 249, 2, 127,
  80, 60, 159, 168, 81, 163, 64, 143, 146, 157, 56, 245,
  188, 182, 218, 33, 16, 255, 243, 210, 205, 12, 19, 236,
  95, 151, 68, 23, 196, 167, 126, 61, 100, 93, 25, 115,
  96, 129, 79, 220, 34, 42, 144, 136, 70, 238, 184, 20,
  222, 94, 11, 219, 224, 50, 58, 10, 73, 6, 36, 92,
  194, 211, 172, 98, 145, 149, 228, 121, 231, 200, 55, 109,
  141, 213, 78, 169, 108, 86, 244, 234, 101, 122, 174, 8,
  186, 120, 37, 46, 28, 166, 180, 198, 232, 221, 116, 31,
  75, 189, 139, 138, 112, 62, 181, 102, 72, 3, 246, 14,
  97, 53, 87, 185, 134, 193, 29, 158, 225, 248, 152, 17,
  105, 217, 142, 148, 155, 30, 135, 233, 206, 85, 40, 223,
  140, 161, 137, 13, 191, 230, 66, 104, 65, 153, 45, 15,
  176, 84, 187, 22]

/-- The inverse AES S-box (FIPS 197). -/
def aesInvSbox : List Nat := [
  82, 9, 106, 213, 48, 54, 165, 56, 191, 64, 163, 158,
  129, 243, 215, 251, 124, 227, 57, 130, 155, 47, 255, 135,
  52, 142, 67, 68, 196, 222, 233, 203, 84, 123, 148, 50,
  166, 194, 35, 61, 238, 76, 149, 11, 66, 250, 195, 78,
  8, 46, 161, 102, 40, 217, 36, 178, 118, 91, 162, 73,
  109, 139, 209, 37, 114, 248, 246, 100, 134, 104, 152, 22,
  212, 164, 92, 204, 93, 101, 182, 146, 108, 112, 72, 80,
  253, 237, 185, 218, 94, 21, 70, 87, 167, 141, 157, 132,
  144, 216, 171, 0, 140, 188, 211, 10, 247, 228, 88, 5,
  184, 179, 69, 6, 208, 44, 30, 143, 202, 63, 15, 2,
  193, 175, 189, 3, 1, 19, 138, 107, 58, 145, 17, 65,
  79, 103, 220, 234, 151, 242, 207, 206, 240, 180, 230, 115,
  150, 172, 116, 34, 231, 173, 53, 133, 226, 249, 55, 232,
  28, 117, 223, 110, 71, 241, 26, 113, 29, 41, 197, 137,
  111, 183, 98, 14, 170, 24, 190, 27, 252, 86, 62, 75,
  198, 210, 121, 32, 154, 219, 192, 254, 120, 205, 90, 244,
  31, 221, 168, 51, 136, 7, 199, 49, 177, 18, 16, 89,
  39, 128, 236, 95, 96, 81, 127, 169, 25, 181, 74, 13,
  45, 229, 122, 159, 147, 201, 156, 239, 160, 224, 59, 77,
  174, 42, 245, 176, 200, 235, 187, 60, 131, 83, 153, 97,
  23, 43, 4, 126, 186, 119, 214, 38, 225, 105, 20, 99,
  85, 33, 12, 125]

/-- Table lookup for the S-boxes. -/
def sboxAt (tbl : List Nat) (b : Nat) : Nat := tbl.getD b 0

/-- The AES round-constant bytes used by the AES-256 key expansion. -/
def aesRcon : List Nat := [1, 2, 4, 8, 16, 32, 64]

/-- Apply the S-box to the four bytes of a word (FIPS 197 SubWord). -/
def subWord (w : Nat) : Nat :=
  ((sboxAt aesSbox (w >>> 24 % 256)) <<< 24) ||| ((sboxAt aesSbox (w >>> 16 % 256)) <<< 16) |||
    ((sboxAt aesSbox (w >>> 8 % 256)) <<< 8) ||| sboxAt aesSbox (w % 256)

/-- Rotate a word left by one byte (FIPS 197 RotWord). -/
def rotWord (w : Nat) : Nat :=
  ((w <<< 8) ||| (w >>> 24)) % 2 ^ 32

/-- The AES-256 key expansion: 8 key words extended to 60 round-key
words (FIPS 197, Nk = 8, Nr = 14). -/
def aesKeyExpansion (key : List Nat) : List Nat :=
  (List.range 52).foldl
    (fun ws _ =>
      let i := ws.length
      let temp := ws.getD (i - 1) 0
      let temp :=
        if i % 8 = 0 then subWord (rotWord temp) ^^^ ((aesRcon.getD (i / 8 - 1) 0) <<< 24)
        else if i % 8 = 4 then subWord temp
        else temp
      ws ++ [ws.getD (i - 8) 0 ^^^ temp])
    (beBytesToWords key)

/-- The 16 round-key bytes of round r, in state order. -/
def roundKeyBytes (ws : List Nat) (r : Nat) : List Nat :=
  ((((ws.drop (4 * r)).take 4).map wordToBeBytes)).flatten

/-- FIPS 197 AddRoundKey: bytewise xor with the round key. -/
def addRoundKey (s k : List Nat) : List Nat :=
  List.zipWith (fun a b => a ^^^ b) s k

/-- FIPS 197 InvShiftRows as an index permutation of the flat state. -/
def invShiftRows (s : List Nat) : List Nat :=
  [0, 13, 10, 7, 4, 1, 14, 11, 8, 5, 2, 15, 12, 9, 6, 3].map (fun i => s.getD i 0)

/-- FIPS 197 InvSubBytes. -/
def invSubBytes (s : List Nat) : List Nat :=
  s.map (sboxAt aesInvSbox)

/-- Multiplication by x in GF(2^8) modulo the AES polynomial. -/
def xtime (b : Nat) : Nat :=
  if b < 128 then b * 2 else (b * 2) ^^^ 0x11b

/-- Multiplication in GF(2^8) modulo the AES polynomial, by eight
shift-and-add steps. -/
def gmulAux : Nat → Nat → Nat → Nat
  | 0, _, _ => 0
  | fuel + 1, a, b => (if b % 2 = 1 then a else 0) ^^^ gmulAux fuel (xtime a) (b / 2)

/-- Multiplication in GF(2^8) modulo the AES polynomial. -/
def gmul (a b : Nat) : Nat :=
  gmulAux 8 a b

/-- FIPS 197 InvMixColumns on one four-byte column. -/
def invMixColumn (col : List Nat) : List Nat :=
  match col with
  | [a, b, c, d] =>
    [gmul a 14 ^^^ gmul b 11 ^^^ gmul c 13 ^^^ gmul d 9,
     gmul a 9 ^^^ gmul b 14 ^^^ gmul c 11 ^^^ gmul d 13,
     gmul a 13 ^^^ gmul b 9 ^^^ gmul c 14 ^^^ gmul d 11,
     gmul a 11 ^^^ gmul b 13 ^^^ gmul c 9 ^^^ gmul d 14]
  | other => other

/-- FIPS 197 InvMixColumns on the flat 16-byte state. -/
def invMixColumns (s : List Nat) : List Nat :=
  ((chunked 4 s).map invMixColumn).flatten

/-- FIPS 197 InvCipher: decrypt one 16-byte block with the expanded
key of AES-256 (14 rounds). -/
def aesDecryptBlock (ws : List Nat) (block : List Nat) : List Nat :=
  let st := addRoundKey block (roundKeyBytes ws 14)
  let st := (List.range 13).foldl
    (fun st k =>
      let r := 13 - k
      invMixColumns (addRoundKey (invSubBytes (invShiftRows st)) (roundKeyBytes ws r)))
    st
  addRoundKey (invSubBytes (invShiftRows st)) (roundKeyBytes ws 0)

/-- CBC-mode decryption: each plaintext block is the block decryption
xored with the previous ciphertext block, the IV first. -/
def aesCbcDecrypt (key iv ct : List Nat) : List Nat :=
  let ws := aesKeyExpansion key
  let blocks := chunked 16 ct
  let prevs := iv :: blocks.dropLast
  (List.zipWith (fun c p => List.zipWith (fun x y => x ^^^ y) (aesDecryptBlock ws c) p) blocks prevs).flatten


/-- The value of a standard base64 alphabet character. -/
def b64CharVal (c : Char) : Option Nat :=
  if 65 ≤ c.toNat ∧ c.toNat ≤ 90 then some (c.toNat - 65)
  else if 97 ≤ c.toNat ∧ c.toNat ≤ 122 then some (c.toNat - 97 + 26)
  else if 48 ≤ c.toNat ∧ c.toNat ≤ 57 then some (c.toNat - 48 + 52)
  else if c = '+' then some 62
  else if c = '/' then some 63
  else none

/-- The CPython non-strict base64 decoding loop (binascii a2b_base64):
non-alphabet characters are skipped; a pad sequence that completes the
current quad ends the data; leftover data characters at the end of the
input are a padding error. -/
def b64DecodeLoop : List Char → Nat → Nat → Nat → Nat → List Nat → Option (List Nat)
  | [], quadPos, _, _, _, out => if quadPos = 0 then some out else none
  | c :: cs, quadPos, pads, bits, acc, out =>
    if c = '=' then
      if 2 ≤ quadPos ∧ 4 ≤ quadPos + pads + 1 then some out
      else b64DecodeLoop cs quadPos (pads + 1) bits acc out
    else
      match b64CharVal c with
      | none => b64DecodeLoop cs quadPos pads bits acc out
      | some v =>
        let acc2 := acc * 64 + v
        let bits2 := bits + 6
        if 8 ≤ bits2 then
          b64DecodeLoop cs ((quadPos + 1) % 4) 0 (bits2 - 8) (acc2 % 2 ^ (bits2 - 8))
            (out ++ [acc2 / 2 ^ (bits2 - 8)])
        else
          b64DecodeLoop cs ((quadPos + 1) % 4) 0 bits2 acc2 out

/-- CPython base64.b64decode on a str with validation off (the default):
the text is first re-encoded as ASCII — any character above 0x7f raises
a ValueError before any decoding — and the surviving bytes go through
the non-strict decoding loop.  `none` exactly when b64decode raises. -/
def b64Decode (s : String) : Option (List Nat) :=
  if s.data.all (fun c => c.toNat < 128) then
    b64DecodeLoop s.data 0 0 0 0 []
  else
    none

/-- UTF-8 encoding of one scalar value. -/
def utf8EncodeChar (c : Char) : List Nat :=
  let n := c.toNat
  if n < 0x80 then [n]
  else if n < 0x800 then [0xc0 + n / 64, 0x80 + n % 64]
  else if n < 0x10000 then [0xe0 + n / 4096, 0x80 + n / 64 % 64, 0x80 + n % 64]
  else [0xf0 + n / 262144, 0x80 + n / 4096 % 64, 0x80 + n / 64 % 64, 0x80 + n % 64]

/-- CPython str.encode, UTF-8. -/
def utf8Encode (s : String) : List Nat :=
  (s.data.map utf8EncodeChar).flatten

/-- Is the byte a UTF-8 continuation byte? -/
def utf8Cont (b : Nat) : Bool :=
  128 ≤ b ∧ b ≤ 191

/-- Strict UTF-8 decoding (CPython bytes.decode default): rejects
truncated sequences, stray continuation bytes, overlong forms, surrogate
code points and values above 0x10ffff. -/
def utf8Decode : List Nat → Option (List Char)
  | [] => some []
  | b :: rest =>
    if b < 0x80 then
      (utf8Decode rest).map (Char.ofNat b :: ·)
    else if 0xc2 ≤ b ∧ b ≤ 0xdf then
      match rest with
      | b2 :: rest2 =>
        if utf8Cont b2 then
          (utf8Decode rest2).map (Char.ofNat ((b - 0xc0) * 64 + (b2 - 0x80)) :: ·)
        else none
      | _ => none
    else if 0xe0 ≤ b ∧ b ≤ 0xef then
      match rest with
      | b2 :: b3 :: rest3 =>
        if (if b = 0xe0 then 0xa0 ≤ b2 ∧ b2 ≤ 0xbf
            else if b = 0xed then 0x80 ≤ b2 ∧ b2 ≤ 0x9f
            else utf8Cont b2) ∧ utf8Cont b3 then
          (utf8Decode rest3).map
            (Char.ofNat ((b - 0xe0) * 4096 + (b2 - 0x80) * 64 + (b3 - 0x80)) :: ·)
        else none
      | _ => none
    else if 0xf0 ≤ b ∧ b ≤ 0xf4 then
      match rest with
      | b2 :: b3 :: b4 :: rest4 =>
        if (if b = 0xf0 then 0x90 ≤ b2 ∧ b2 ≤ 0xbf
            else if b = 0xf4 then 0x80 ≤ b2 ∧ b2 ≤ 0x8f
            else utf8Cont b2) ∧ utf8Cont b3 ∧ utf8Cont b4 then
          (utf8Decode rest4).map
            (Char.ofNat ((b - 0xf0) * 262144 + (b2 - 0x80) * 4096 + (b3 - 0x80) * 64 + (b4 - 0x80)) :: ·)
        else none
      | _ => none
    else none

/-! ## json.loads

A recursive-descent parser for exactly the documents CPython json.loads
accepts with its defaults, including fraction / exponent numerals, the
NaN and Infinity constants, and unicode escapes.  Two value
representations are approximate, with acceptance unaffected: a float is
carried as the exact decimal value of its numeral rather than the
rounded IEEE double (see `Json`), and an unpaired surrogate escape —
which CPython keeps as a lone surrogate code unit in the str — is
decoded as U+FFFD, which a Lean string can hold.  Resource-limit
failures (interpreter recursion limits on deeply nested documents) are
not modelled. -/

/-- The whitespace skipped between JSON tokens. -/
def jsonSkipWs (cs : List Char) : List Char :=
  cs.dropWhile (fun c => c = ' ' ∨ c = '\t' ∨ c = '\n' ∨ c = '\r')

/-- The value of one hexadecimal digit. -/
def hexVal (c : Char) : Option Nat :=
  if 48 ≤ c.toNat ∧ c.toNat ≤ 57 then some (c.toNat - 48)
  else if 97 ≤ c.toNat ∧ c.toNat ≤ 102 then some (c.toNat - 97 + 10)
  else if 65 ≤ c.toNat ∧ c.toNat ≤ 70 then some (c.toNat - 65 + 10)
  else none

/-- Four hexadecimal digits, as in a unicode escape. -/
def parseHex4 (cs : List Char) : Option (Nat × List Char) :=
  match cs with
  | c1 :: c2 :: c3 :: c4 :: rest =>
    match hexVal c1, hexVal c2, hexVal c3, hexVal c4 with
    | some v1, some v2, some v3, some v4 => some (v1 * 4096 + v2 * 256 + v3 * 16 + v4, rest)
    | _, _, _, _ => none
  | _ => none

/-- The body of a JSON string after the opening quote, with escape
processing, returning the decoded characters and the remaining input.
A surrogate pair of unicode escapes is combined; an unpaired surrogate
escape is accepted as CPython accepts it, its code unit carried as
U+FFFD (see the section comment), with parsing resuming right after
that escape. -/
def parseJsonStringBody : Nat → List Char → Option (List Char × List Char)
  | 0, _ => none
  | _, [] => none
  | fuel + 1, c :: rest =>
    if c = '"' then some ([], rest)
    else if c = '\\' then
      match rest with
      | [] => none
      | e :: r2 =>
        if e = 'u' then
          match parseHex4 r2 with
          | none => none
          | some (n, r3) =>
            if 0xd800 ≤ n ∧ n ≤ 0xdbff then
              match r3 with
              | '\\' :: 'u' :: r4 =>
                match parseHex4 r4 with
                | some (m, r5) =>
                  if 0xdc00 ≤ m ∧ m ≤ 0xdfff then
                    (parseJsonStringBody fuel r5).map
                      (fun p => (Char.ofNat (0x10000 + (n - 0xd800) * 1024 + (m - 0xdc00)) :: p.1, p.2))
                  else
                    (parseJsonStringBody fuel r3).map
                      (fun p => (Char.ofNat 0xfffd :: p.1, p.2))
                | none =>
                  (parseJsonStringBody fuel r3).map
                    (fun p => (Char.ofNat 0xfffd :: p.1, p.2))
              | _ =>
                (parseJsonStringBody fuel r3).map
                  (fun p => (Char.ofNat 0xfffd :: p.1, p.2))
            else if 0xdc00 ≤ n ∧ n ≤ 0xdfff then
              (parseJsonStringBody fuel r3).map
                (fun p => (Char.ofNat 0xfffd :: p.1, p.2))
            else (parseJsonStringBody fuel r3).map (fun p => (Char.ofNat n :: p.1, p.2))
        else
          let esc : Option Char :=
            if e = '"' then some '"'
            else if e = '\\' then some '\\'
            else if e = '/' then some '/'
            else if e = 'b' then some (Char.ofNat 8)
            else if e = 'f' then some (Char.ofNat 12)
            else if e = 'n' then some '\n'
            else if e = 'r' then some '\r'
            else if e = 't' then some '\t'
            else none
          match esc with
          | none => none
          | some ec => (parseJsonStringBody fuel r2).map (fun p => (ec :: p.1, p.2))
    else if c.toNat < 0x20 then none
    else (parseJsonStringBody fuel rest).map (fun p => (c :: p.1, p.2))

/-- The value of a run of decimal digits. -/
def digitsToNat (ds : List Char) : Nat :=
  ds.foldl (fun n c => n * 10 + (c.toNat - 48)) 0

/-- The optional fraction of a JSON numeral: a dot is consumed only when
at least one digit follows, exactly as the greedy NUMBER_RE of CPython
json backtracks (the input 1. parses as the integer 1 with the dot left
over). -/
def parseJsonFrac (cs : List Char) : Option (List Char × List Char) :=
  match cs with
  | '.' :: rest =>
    let ds := rest.takeWhile Char.isDigit
    if ds.isEmpty then none else some (ds, rest.dropWhile Char.isDigit)
  | _ => none

/-- The optional exponent of a JSON numeral: an e or E is consumed only
when an optional sign and at least one digit follow, as in NUMBER_RE. -/
def parseJsonExp (cs : List Char) : Option (Int × List Char) :=
  match cs with
  | e :: rest =>
    if e = 'e' ∨ e = 'E' then
      let signed : Bool × List Char :=
        match rest with
        | '+' :: r2 => (false, r2)
        | '-' :: r2 => (true, r2)
        | _ => (false, rest)
      let ds := signed.2.takeWhile Char.isDigit
      if ds.isEmpty then none
      else
        let v : Int := Int.ofNat (digitsToNat ds)
        some ((if signed.1 then -v else v), signed.2.dropWhile Char.isDigit)
    else none
  | [] => none

/-- A JSON numeral (the NUMBER_RE of CPython json): optional minus, an
integer part that is a single 0 or starts with a nonzero digit, then the
optional fraction and exponent.  An integer lexeme yields a Python int;
a lexeme with a fraction or exponent yields a float, carried as its
exact decimal value. -/
def parseJsonNumber (cs : List Char) : Option (Json × List Char) :=
  let signed : Bool × List Char :=
    match cs with
    | '-' :: t => (true, t)
    | _ => (false, cs)
  let int_rest : Option (Nat × List Char) :=
    match signed.2 with
    | '0' :: rest => some (0, rest)
    | c :: rest =>
      if c.isDigit then
        some (digitsToNat ((c :: rest).takeWhile Char.isDigit),
          (c :: rest).dropWhile Char.isDigit)
      else none
    | [] => none
  match int_rest with
  | none => none
  | some (ip, rest1) =>
    match parseJsonFrac rest1, parseJsonExp ((parseJsonFrac rest1).map (·.2) |>.getD rest1) with
    | none, none =>
      some (.num (if signed.1 then -(Int.ofNat ip) else Int.ofNat ip), rest1)
    | frac, eopt =>
      let fds := (frac.map (·.1)).getD []
      let rest2 := (frac.map (·.2)).getD rest1
      let ev := (eopt.map (·.1)).getD 0
      let rest3 := (eopt.map (·.2)).getD rest2
      let m0 : Int := Int.ofNat (ip * 10 ^ fds.length + digitsToNat fds)
      some (.fnum (if signed.1 then -m0 else m0) (ev - (fds.length : Int)), rest3)

mutual

/-- A JSON value, fuel-bounded. -/
def parseJsonValue : Nat → List Char → Option (Json × List Char)
  | 0, _ => none
  | fuel + 1, input =>
    match jsonSkipWs input with
    | 'n' :: 'u' :: 'l' :: 'l' :: rest => some (.null, rest)
    | 't' :: 'r' :: 'u' :: 'e' :: rest => some (.bool true, rest)
    | 'f' :: 'a' :: 'l' :: 's' :: 'e' :: rest => some (.bool false, rest)
    | 'N' :: 'a' :: 'N' :: rest => some (.nan, rest)
    | 'I' :: 'n' :: 'f' :: 'i' :: 'n' :: 'i' :: 't' :: 'y' :: rest =>
      some (.inf false, rest)
    | '-' :: 'I' :: 'n' :: 'f' :: 'i' :: 'n' :: 'i' :: 't' :: 'y' :: rest =>
      some (.inf true, rest)
    | '"' :: rest => (parseJsonStringBody fuel rest).map (fun p => (.str ⟨p.1⟩, p.2))
    | '[' :: rest =>
      (match jsonSkipWs rest with
       | ']' :: r2 => some (.arr [], r2)
       | _ => (parseJsonElements fuel rest).map (fun p => (.arr p.1, p.2)))
    | c :: rest =>
      if c = Char.ofNat 0x7b then
        match jsonSkipWs rest with
        | c2 :: r2 =>
          if c2 = Char.ofNat 0x7d then some (.obj [], r2)
          else (parseJsonMembers fuel rest).map (fun p => (.obj p.1, p.2))
        | [] => none
      else parseJsonNumber (c :: rest)
    | [] => none

/-- The elements of a non-empty JSON array after the opening bracket. -/
def parseJsonElements : Nat → List Char → Option (List Json × List Char)
  | 0, _ => none
  | fuel + 1, input =>
    match parseJsonValue fuel input with
    | none => none
    | some (v, rest) =>
      match jsonSkipWs rest with
      | ',' :: r2 => (parseJsonElements fuel r2).map (fun p => (v :: p.1, p.2))
      | ']' :: r2 => some ([v], r2)
      | _ => none

/-- The members of a non-empty JSON object after the opening brace. -/
def parseJsonMembers : Nat → List Char → Option (List (String × Json) × List Char)
  | 0, _ => none
  | fuel + 1, input =>
    match jsonSkipWs input with
    | '"' :: rest =>
      match parseJsonStringBody fuel rest with
      | none => none
      | some (k, r2) =>
        match jsonSkipWs r2 with
        | ':' :: r3 =>
          match parseJsonValue fuel r3 with
          | none => none
          | some (v, r4) =>
            match jsonSkipWs r4 with
            | ',' :: r5 => (parseJsonMembers fuel r5).map (fun p => ((⟨k⟩, v) :: p.1, p.2))
            | c :: r5 =>
              if c = Char.ofNat 0x7d then some ([(⟨k⟩, v)], r5) else none
            | [] => none
        | _ => none
    | _ => none

end

/-- CPython json.loads (with the restrictions of this section): the
parsed value when the whole input is consumed. -/
def jsonLoads (s : String) : Option Json :=
  match parseJsonValue (2 * s.data.length + 8) s.data with
  | some (j, rest) => if (jsonSkipWs rest).isEmpty then some j else none
  | none => none

/-! ## Webhook: AESCipher.decrypt, decrypt_message, handle_event -/

/-- The distinct failure points of the decryption pipeline of webhook.py.
All of them surface as a caught-and-rethrown exception in the source; the
constructor records which statement raised. -/
inductive DecryptErr where
  | notConfigured
  | badBase64
  | shortIv
  | badBlockLength
  | emptyCiphertext
  | badUtf8
  | badJson
deriving DecidableEq, Repr

/-- Crypto.Cipher.AES.block_size. -/
def AES.block_size : Nat := 16

/-- `AESCipher.decrypt` (webhook.py, lines 46-77) with the already-derived
32-byte key: base64-decode, split off the leading 16-byte IV (AES.new
rejects a shorter IV, cipher.decrypt rejects a ciphertext that is not a
multiple of the block size, and an empty ciphertext makes the
`decrypted[-1]` lookup raise), CBC-decrypt, read the last byte as the
padding length and drop that many trailing bytes with no validation
whatsoever (`decrypted[:-pad_length]`, everything when the byte is 0 or at
least the length), then UTF-8-decode the remainder. -/
def AESCipher.decrypt (key : List Nat) (encrypted_data : String) :
    Except DecryptErr String :=
  match b64Decode encrypted_data with
  | none => .error .badBase64
  | some encrypted_bytes =>
    let iv := encrypted_bytes.take AES.block_size
    let ciphertext := encrypted_bytes.drop AES.block_size
    if iv.length < AES.block_size then .error .shortIv
    else if ¬ ciphertext.length % AES.block_size = 0 then .error .badBlockLength
    else if ciphertext.length = 0 then .error .emptyCiphertext
    else
      let decrypted := aesCbcDecrypt key iv ciphertext
      let pad_length := decrypted.getLast?.getD 0
      match utf8Decode (pyDropTail pad_length decrypted) with
      | some cs => .ok ⟨cs⟩
      | none => .error .badUtf8

/-- `decrypt_message` (webhook.py, lines 80-95): require the configured
secret, derive the key as the SHA-256 of its UTF-8 bytes, decrypt, and
parse the plaintext as JSON. -/
def decrypt_message (feishu_encrypt_key : String) (encrypt_data : String) :
    Except DecryptErr Json :=
  if feishu_encrypt_key = "" then .error .notConfigured
  else
    match AESCipher.decrypt (sha256 (utf8Encode feishu_encrypt_key)) encrypt_data with
    | .error e => .error e
    | .ok s =>
      match jsonLoads s with
      | some j => .ok j
      | none => .error .badJson

/-- CPython dict lookup on the key-value list of a parsed JSON object;
with duplicate keys the later binding wins, as in dict construction. -/
def Json.getKey (kvs : List (String × Json)) (k : String) : Option Json :=
  kvs.foldl (fun acc p => if p.1 = k then some p.2 else acc) none

/-- CPython truthiness of a parsed JSON value (zero of either numeric
type is falsy; NaN and the infinities are truthy). -/
def Json.truthy : Json → Bool
  | .null => false
  | .bool b => b
  | .num n => ¬ n = 0
  | .fnum m _ => ¬ m = 0
  | .nan => true
  | .inf _ => true
  | .str s => ¬ s = ""
  | .arr xs => ¬ xs.isEmpty
  | .obj kvs => ¬ kvs.isEmpty

/-- CPython `value.get(key, default)`: defined for dicts, an
AttributeError (`none`) for every other value. -/
def pyGetD : Json → String → Json → Option Json
  | .obj kvs, k, dflt => some ((Json.getKey kvs k).getD dflt)
  | _, _, _ => none

/-- The webhook HTTP outcome: the 400 client error raised for an
unparseable body, or a JSON response. -/
inductive HEResponse where
  | clientError
  | json (j : Json)
deriving Repr

/-- The fixed success acknowledgment of webhook.py. -/
def success_response : Json :=
  .obj [("code", .num 0), ("msg", .str "success")]

/-- Everything `handle_event` produces: the HTTP response, the dedup
cache and diaries table after the call, and the background tasks handed
to `process_message_async` as (message, sender, message_type). -/
structure WebhookResult where
  response : HEResponse
  dedup : DedupState
  diaries : DiaryStore
  tasks : List (Json × Json × Json)
deriving Repr

/-- The event routing of `handle_event` below the challenge check
(webhook.py, lines 184-228).  Every path answers with the success
acknowledgment; only the dedup cache, the diaries table and the scheduled
background tasks differ.  A `none` from a `.get` on a non-dict value is
the AttributeError caught by the outer handler, which leaves all state
unchanged; an unhashable message id raises after the purge has already
run. -/
def route_event (d : Json) (dedup : DedupState) (diaries : DiaryStore)
    (now : Nat) : DedupState × DiaryStore × List (Json × Json × Json) :=
  (do
    let event_data ← pyGetD d "event" (.obj [])
    let header ← pyGetD d "header" (.obj [])
    let event_type ← pyGetD header "event_type" (.str "")
    if Json.beq event_type (.str "im.message.receive_v1") then do
      let message ← pyGetD event_data "message" (.obj [])
      let sender ← pyGetD event_data "sender" (.obj [])
      let message_type ← pyGetD message "message_type" (.str "")
      let message_id ← pyGetD message "message_id" (.str "")
      let res := is_duplicate_message dedup message_id now
      match res.1 with
      | .error _ => some (res.2, diaries, [])
      | .ok true => some (res.2, diaries, [])
      | .ok false => some (res.2, diaries, [(message, sender, message_type)])
    else if Json.beq event_type (.str "drive.file.deleted_completely_v1") then do
      let file_token ← pyGetD event_data "file_token" (.str "")
      let _file_type ← pyGetD event_data "file_type" (.str "")
      if file_token.truthy then
        some (dedup,
          (DiaryService.get_diaries_by_document_id diaries file_token).foldl
            (fun (acc : DiaryStore) (row : DiaryRow) =>
              if ¬ row.id = "" then (DiaryService.delete_diary acc row.id).2 else acc)
            diaries,
          [])
      else
        some (dedup, diaries, [])
    else
      some (dedup, diaries, [])).getD (dedup, diaries, [])

/-- The body replacement of webhook.py lines 170-177: a dict with an
`encrypt` string value whose decryption chain succeeds is replaced by the
decrypted event; every failure inside the guarded call — a failing
decryption, or a non-string `encrypt` value whose base64 call raises — is
caught and keeps the original payload.  For a non-dict body the
membership test either is false or leads into the same guarded call, so
the payload is likewise unchanged. -/
def effective_payload (feishu_encrypt_key : String) (data0 : Json) : Json :=
  match data0 with
  | .obj kvs =>
    match Json.getKey kvs "encrypt" with
    | some (.str enc) =>
      match decrypt_message feishu_encrypt_key enc with
      | .ok d => d
      | .error _ => data0
    | some _ => data0
    | none => data0
  | _ => data0

/-- The value echoed by the challenge branch: the `challenge` entry of a
dict payload.  For a non-dict payload the membership test either is a
substring or element test that leads into a caught TypeError on the
subscript, or raises itself; no challenge is ever echoed for those. -/
def challenge_value : Json → Option Json
  | .obj kvs => Json.getKey kvs "challenge"
  | _ => none

/-- `handle_event` (webhook.py, lines 151-238).  The request body is the
result of `json.loads` on the POST body: `none` when parsing fails, the
only path answered with a client error.  Otherwise the body is replaced
by its effective payload (see `effective_payload`); a `challenge` key of
the resulting dict is echoed back, and everything else is answered with
the fixed success acknowledgment: for a non-dict value the membership
test or the `.get` raises inside the guarded region before any state is
touched, and for a dict the event routing runs. -/
def handle_event (feishu_encrypt_key : String) (dedup : DedupState)
    (diaries : DiaryStore) (now : Nat) (body : Option Json) : WebhookResult :=
  match body with
  | none =>
    { response := .clientError, dedup := dedup, diaries := diaries, tasks := [] }
  | some data0 =>
    let data := effective_payload feishu_encrypt_key data0
    match data with
    | .obj kvs =>
      match Json.getKey kvs "challenge" with
      | some v =>
        { response := .json (.obj [("challenge", v)]), dedup := dedup,
          diaries := diaries, tasks := [] }
      | none =>
        let r := route_event data dedup diaries now
        { response := .json success_response, dedup := r.1,
          diaries := r.2.1, tasks := r.2.2 }
    | _ =>
      { response := .json success_response, dedup := dedup,
        diaries := diaries, tasks := [] }


/-! ## Concrete inputs used by the theorems -/

/-- The 24-append compaction scenario of the specification: a fresh
session holding the single persona message, then 24 alternating
user/assistant appends with contents "0" to "23". -/
def c2_scenario : List ChatMsg :=
  (List.range 24).foldl
    (fun ms i =>
      ConversationService.add_message ms
        (if i % 2 = 0 then "user" else "assistant") (toString i) (i + 1))
    [ChatMsg.mk "system" "persona" 0]

/-- A concrete envelope for the crypto gate: the base64 of IV ++ AES-256-
CBC ciphertext under the key sha256("test_key"), whose plaintext is the
16-byte block of fifteen 0xff bytes followed by 0x01 — a well-formed
envelope with the valid padding byte 1 whose stripped payload is not
UTF-8. -/
def envelope_garbage : String :=
  "AAECAwQFBgcICQoLDA0OD/u1cF1u5CpmlYiy6+H8BvA="

/-- A concrete envelope for the crypto gate: the base64 of IV ++ AES-256-
CBC ciphertext under the key sha256("test_key"), whose PKCS7-padded
plaintext (one block, padding byte 1) is the JSON text for an object with
the single entry challenge equal to the number 1. -/
def envelope_challenge : String :=
  "AAECAwQFBgcICQoLDA0OD8/9Vu6J9k7CuYRpoBRTQbI="

/-- The number of leading hash marks of a line. -/
def leadingHashes (l : List Char) : Nat :=
  (l.takeWhile (fun c => c = '#')).length

/-- The per-line block rule as the amended specification words it: after
stripping, a blank line yields no block; a line beginning with one, two or
three hash marks followed by a space yields the heading of that level,
carrying the rest of the line after the space; every other line yields a
paragraph block. -/
def spec_line_rule (line : List Char) : Option Block :=
  let l := pyStripL line
  if l.isEmpty then none
  else
    let k := leadingHashes l
    if 1 ≤ k ∧ k ≤ 3 ∧ l.get? k = some ' ' then
      match k with
      | 1 => some (.heading1 ⟨l.drop 2⟩)
      | 2 => some (.heading2 ⟨l.drop 3⟩)
      | _ => some (.heading3 ⟨l.drop 4⟩)
    else
      some (.paragraph ⟨l⟩)

set_option maxRecDepth 100000
set_option maxHeartbeats 4000000

/-! ## Helper lemmas -/

theorem toNat_ofNat_small (n : Nat) (h : n < 0xd800) : (Char.ofNat n).toNat = n := by
  have hv : n.isValidChar := Or.inl h
  simp [Char.ofNat, hv]
  rfl

theorem pyLowerChar_eq_high (k c : Char) (hk : 127 < k.toNat) :
    (k = pyLowerChar c) ↔ (k = c) := by
  unfold pyLowerChar
  split
  case isTrue hc =>
    constructor
    · intro he
      exfalso
      have : k.toNat = (Char.ofNat (c.toNat + 32)).toNat := congrArg Char.toNat he
      rw [toNat_ofNat_small (c.toNat + 32) (by omega)] at this
      omega
    · intro he
      exfalso
      have : k.toNat = c.toNat := congrArg Char.toNat he
      omega
  case isFalse hc => exact Iff.rfl

theorem startsWithL_map_pyLowerChar (kw : List Char) (hkw : ∀ c ∈ kw, 127 < c.toNat)
    (l : List Char) : startsWithL kw (l.map pyLowerChar) = startsWithL kw l := by
  induction kw generalizing l with
  | nil => rfl
  | cons k ks ih =>
    cases l with
    | nil => rfl
    | cons c cs =>
      simp only [List.map_cons, startsWithL]
      rw [decide_eq_decide.mpr (pyLowerChar_eq_high k c (hkw k (List.mem_cons_self k ks)))]
      rw [ih (fun c hc => hkw c (List.mem_cons_of_mem _ hc)) cs]

theorem occursIn_map_pyLowerChar (kw : List Char) (hkw : ∀ c ∈ kw, 127 < c.toNat)
    (l : List Char) : occursIn kw (l.map pyLowerChar) = occursIn kw l := by
  induction l with
  | nil => rfl
  | cons c cs ih =>
    simp only [List.map_cons, occursIn]
    rw [show (pyLowerChar c :: cs.map pyLowerChar) = (c :: cs).map pyLowerChar from rfl,
      startsWithL_map_pyLowerChar kw hkw (c :: cs)]
    rw [ih]

theorem pyIn_pyLower (kw text : String) (h : ∀ c ∈ kw.data, 127 < c.toNat) :
    pyIn kw (pyLower text) = pyIn kw text :=
  occursIn_map_pyLowerChar kw.data h text.data

theorem end_keywords_high : ∀ kw ∈ end_keywords, ∀ c ∈ kw.data, 127 < c.toNat := by
  decide

/-- C7: intent classification is a pure lexical function: the diary flag
holds exactly when the raw text contains a finish keyword, and the command
intent holds exactly when the raw text starts with a slash. -/
theorem claim_C7 (text : String) :
    ((analyze_intent text).should_generate_diary = true ↔
      ∃ kw ∈ end_keywords, pyIn kw text = true) ∧
    ((analyze_intent text).type = IntentType.command ↔ pyStartsWith text "/" = true) := by
  have hkw : ∀ kw ∈ end_keywords, pyIn kw (pyLower text) = pyIn kw text :=
    fun kw hk => pyIn_pyLower kw text (end_keywords_high kw hk)
  have hany : (end_keywords.any (fun kw => pyIn kw (pyLower text)) = true) ↔
      (∃ kw ∈ end_keywords, pyIn kw text = true) := by
    rw [List.any_eq_true]
    constructor
    · rintro ⟨kw, hk, hp⟩
      exact ⟨kw, hk, (hkw kw hk) ▸ hp⟩
    · rintro ⟨kw, hk, hp⟩
      exact ⟨kw, hk, (hkw kw hk).symm ▸ hp⟩
  unfold analyze_intent
  by_cases hflag : end_keywords.any (fun kw => pyIn kw (pyLower text)) = true <;>
    by_cases hcmd : pyStartsWith text "/" = true <;>
      simp [hflag, hcmd, hany, ← hany]

theorem add_message_compacts (messages : List ChatMsg) (role content : String)
    (now : Nat) (h : 20 < messages.length + 1) :
    ∃ dropped kept,
      (messages ++ [ChatMsg.mk role content now]).filter
          (fun m => ¬ m.role = "system") = dropped ++ kept ∧
      kept.length = min 18 ((messages ++ [ChatMsg.mk role content now]).filter
          (fun m => ¬ m.role = "system")).length ∧
      ConversationService.add_message messages role content now =
        (messages ++ [ChatMsg.mk role content now]).filter
          (fun m => m.role = "system") ++ kept := by
  set appended := messages ++ [ChatMsg.mk role content now] with happ
  set other := appended.filter (fun m => ¬ m.role = "system") with hother
  refine ⟨other.take (other.length - 18), other.drop (other.length - 18), ?_, ?_, ?_⟩
  · exact (List.take_append_drop _ _).symm
  · rw [List.length_drop]
    omega
  · unfold ConversationService.add_message
    rw [← happ]
    have hlen : 20 < appended.length := by
      rw [happ, List.length_append]
      simpa using h
    simp only [if_pos hlen]

/-- C2: the 24-append scenario leaves exactly 19 entries — the persona
message followed by the last 18 appended messages in order — and, in
general, an append that pushes the count past 20 keeps the system
messages followed by the most recent 18 non-system messages, dropping the
oldest non-system ones. -/
theorem claim_C2 :
    (c2_scenario.length = 19 ∧
      c2_scenario =
        ChatMsg.mk "system" "persona" 0 ::
          ((List.range 24).drop 6).map
            (fun i => ChatMsg.mk (if i % 2 = 0 then "user" else "assistant")
              (toString i) (i + 1))) ∧
    ∀ (messages : List ChatMsg) (role content : String) (now : Nat),
      20 < messages.length + 1 →
      ∃ dropped kept,
        (messages ++ [ChatMsg.mk role content now]).filter
            (fun m => ¬ m.role = "system") = dropped ++ kept ∧
        kept.length = min 18 ((messages ++ [ChatMsg.mk role content now]).filter
            (fun m => ¬ m.role = "system")).length ∧
        ConversationService.add_message messages role content now =
          (messages ++ [ChatMsg.mk role content now]).filter
            (fun m => m.role = "system") ++ kept :=
  ⟨by constructor <;> decide, add_message_compacts⟩

/-- Witness for C2 at a concrete 20-message store. -/
theorem claim_C2_witness :
    (20 < (List.replicate 20 (ChatMsg.mk "user" "m" 0)).length + 1) ∧
    ∃ dropped kept,
      (List.replicate 20 (ChatMsg.mk "user" "m" 0) ++ [ChatMsg.mk "assistant" "x" 5]).filter
          (fun m => ¬ m.role = "system") = dropped ++ kept ∧
      kept.length = min 18 ((List.replicate 20 (ChatMsg.mk "user" "m" 0) ++ [ChatMsg.mk "assistant" "x" 5]).filter
          (fun m => ¬ m.role = "system")).length ∧
      ConversationService.add_message (List.replicate 20 (ChatMsg.mk "user" "m" 0)) "assistant" "x" 5 =
        (List.replicate 20 (ChatMsg.mk "user" "m" 0) ++ [ChatMsg.mk "assistant" "x" 5]).filter
          (fun m => m.role = "system") ++ kept :=
  ⟨by decide, claim_C2.2 (List.replicate 20 (ChatMsg.mk "user" "m" 0)) "assistant" "x" 5 (by decide)⟩

theorem json_beq_str (a b : String) : (Json.str a == Json.str b) = decide (a = b) := rfl

theorem is_duplicate_message_eq (s : DedupState) (mid : Json) (nw : Nat)
    (hh : mid.hashable = true) :
    is_duplicate_message s mid nw =
      (if (s.filter (fun e => ¬ 300 < nw - e.2)).any (fun e => e.1 == mid) = true
       then (.ok true, s.filter (fun e => ¬ 300 < nw - e.2))
       else (.ok false, s.filter (fun e => ¬ 300 < nw - e.2) ++ [(mid, nw)])) := by
  unfold is_duplicate_message
  dsimp only
  rw [if_pos hh]

/-- C3: from a cache not containing the id, the dedup check answers
false and records the id at the current time; a second check within 300
seconds answers true; a third check after the window has expired answers
false again and re-records the id; and every call leaves only entries at
most 300 seconds old (the purge). -/
theorem claim_C3 (st : DedupState) (E : String) (t1 t2 t3 : Nat)
    (habs : ∀ p ∈ st, (p.1 == Json.str E) = false)
    (h12 : t2 ≤ t1 + 300) (h3 : t1 + 300 < t3) :
    ∃ st1 st2 st3,
      is_duplicate_message st (.str E) t1 = (.ok false, st1) ∧
      (Json.str E, t1) ∈ st1 ∧
      is_duplicate_message st1 (.str E) t2 = (.ok true, st2) ∧
      is_duplicate_message st2 (.str E) t3 = (.ok false, st3) ∧
      (Json.str E, t3) ∈ st3 ∧
      (∀ (s : DedupState) (id : Json) (nw : Nat),
        ∀ p ∈ (is_duplicate_message s id nw).2, nw - p.2 ≤ 300) := by
  have hpurge : ∀ (s : DedupState) (id : Json) (nw : Nat),
      ∀ p ∈ (is_duplicate_message s id nw).2, nw - p.2 ≤ 300 := by
    intro s id nw p hp
    have hfresh : ∀ q ∈ s.filter (fun e => ¬ 300 < nw - e.2), nw - q.2 ≤ 300 := by
      intro q hq
      have := (List.mem_filter.mp hq).2
      simp only [decide_eq_true_eq, Nat.not_lt] at this
      omega
    by_cases hh : id.hashable = true
    · rw [is_duplicate_message_eq s id nw hh] at hp
      split at hp
      · exact hfresh p hp
      · rcases List.mem_append.mp hp with hke | hnew
        · exact hfresh p hke
        · simp only [List.mem_singleton] at hnew
          rw [hnew]
          omega
    · unfold is_duplicate_message at hp
      rw [if_neg hh] at hp
      exact hfresh p hp
  refine ⟨st.filter (fun e => ¬ 300 < t1 - e.2) ++ [(Json.str E, t1)],
    (st.filter (fun e => ¬ 300 < t1 - e.2) ++ [(Json.str E, t1)]).filter
      (fun e => ¬ 300 < t2 - e.2),
    ((st.filter (fun e => ¬ 300 < t1 - e.2) ++ [(Json.str E, t1)]).filter
      (fun e => ¬ 300 < t2 - e.2)).filter (fun e => ¬ 300 < t3 - e.2) ++ [(Json.str E, t3)],
    ?_, ?_, ?_, ?_, ?_, hpurge⟩
  · have hany : (st.filter (fun e => ¬ 300 < t1 - e.2)).any
        (fun e => e.1 == Json.str E) = false := by
      rw [List.any_eq_false]
      intro q hq
      simp [habs q (List.mem_filter.mp hq).1]
    rw [is_duplicate_message_eq st (.str E) t1 rfl, if_neg (by rw [hany]; exact Bool.false_ne_true)]
  · exact List.mem_append_right _ (List.mem_singleton.mpr rfl)
  · rw [is_duplicate_message_eq _ (.str E) t2 rfl, if_pos]
    rw [List.any_eq_true]
    refine ⟨(Json.str E, t1), ?_, by simp [json_beq_str]⟩
    rw [List.mem_filter]
    refine ⟨List.mem_append_right _ (List.mem_singleton.mpr rfl), ?_⟩
    simp only [decide_eq_true_eq, Nat.not_lt]
    omega
  · have hany : (((st.filter (fun e => ¬ 300 < t1 - e.2) ++ [(Json.str E, t1)]).filter
        (fun e => ¬ 300 < t2 - e.2)).filter (fun e => ¬ 300 < t3 - e.2)).any
          (fun e => e.1 == Json.str E) = false := by
      rw [List.any_eq_false]
      intro q hq
      have hq1 := List.mem_filter.mp hq
      have hq2 := List.mem_filter.mp hq1.1
      rcases List.mem_append.mp hq2.1 with hk1 | hnew
      · simp [habs q (List.mem_filter.mp hk1).1]
      · simp only [List.mem_singleton] at hnew
        have := hq1.2
        rw [hnew] at this
        simp only [decide_eq_true_eq, Nat.not_lt] at this
        omega
    rw [is_duplicate_message_eq _ (.str E) t3 rfl, if_neg (by rw [hany]; exact Bool.false_ne_true)]
  · exact List.mem_append_right _ (List.mem_singleton.mpr rfl)

/-- Witness for C3: the empty cache, id "evt", first call at 0, second
at 300 (the edge of the window), third at 301. -/
theorem claim_C3_witness :
    (∀ p ∈ ([] : DedupState), (p.1 == Json.str "evt") = false) ∧
    300 ≤ 0 + 300 ∧ 0 + 300 < 301 ∧
    ∃ st1 st2 st3,
      is_duplicate_message [] (.str "evt") 0 = (.ok false, st1) ∧
      (Json.str "evt", 0) ∈ st1 ∧
      is_duplicate_message st1 (.str "evt") 300 = (.ok true, st2) ∧
      is_duplicate_message st2 (.str "evt") 301 = (.ok false, st3) ∧
      (Json.str "evt", 301) ∈ st3 ∧
      (∀ (s : DedupState) (id : Json) (nw : Nat),
        ∀ p ∈ (is_duplicate_message s id nw).2, nw - p.2 ≤ 300) :=
  ⟨by simp, by decide, by decide,
    claim_C3 [] "evt" 0 300 301 (by simp) (by decide) (by decide)⟩

/-- C6: deleting a present diary id succeeds; repeating the deletion on
the resulting store reports not-found; both calls are plain total
computations (the source catches every exception and returns a boolean).
The effective definition is the second `delete_diary` of
diary_service.py, which shadows the earlier one. -/
theorem claim_C6 (store : DiaryStore) (diary_id : String)
    (h : ∃ d ∈ store, d.id = diary_id) :
    (DiaryService.delete_diary store diary_id).1 = true ∧
    (DiaryService.delete_diary (DiaryService.delete_diary store diary_id).2 diary_id).1 = false := by
  unfold DiaryService.delete_diary
  constructor
  · simp only [decide_eq_true_eq]
    rw [List.length_filter_lt_length_iff_exists]
    rcases h with ⟨d, hd, hid⟩
    exact ⟨d, hd, by simp [hid]⟩
  · simp only [decide_eq_false_iff_not]
    have hself : (store.filter (fun d => ¬ d.id = diary_id)).filter
        (fun d => ¬ d.id = diary_id) = store.filter (fun d => ¬ d.id = diary_id) :=
      List.filter_eq_self.mpr (fun a ha => (List.mem_filter.mp ha).2)
    rw [hself]
    omega

/-- Witness for C6 at a one-row store. -/
theorem claim_C6_witness :
    (∃ d ∈ [DiaryRow.mk "d1" "u" "t" "c" "s" [] [] (some "doc")], d.id = "d1") ∧
    (DiaryService.delete_diary [DiaryRow.mk "d1" "u" "t" "c" "s" [] [] (some "doc")] "d1").1 = true ∧
    (DiaryService.delete_diary
      (DiaryService.delete_diary [DiaryRow.mk "d1" "u" "t" "c" "s" [] [] (some "doc")] "d1").2
      "d1").1 = false :=
  ⟨⟨DiaryRow.mk "d1" "u" "t" "c" "s" [] [] (some "doc"), by simp, rfl⟩,
    claim_C6 [DiaryRow.mk "d1" "u" "t" "c" "s" [] [] (some "doc")] "d1"
      ⟨DiaryRow.mk "d1" "u" "t" "c" "s" [] [] (some "doc"), by simp, rfl⟩⟩

/-- C10: with a context holding at most the persona message, the run
sends the prompting reply and changes nothing: the state (messages, media
buffer, session status, diaries table) is returned untouched and the only
effect is that one chat message — no composition call, no document
attempt, no session close. -/
theorem claim_C10 (user_id : String) (st : HandlerState)
    (diary_content : String) (doc_result : Option PublishResult)
    (diary_id today : String) (h : st.messages.length ≤ 1) :
    TextHandler.generate_diary user_id st diary_content doc_result diary_id today =
      (st, [.send_text user_id "还没有记录今天的事情呢，先和我聊聊今天发生了什么吧~"], 0) := by
  unfold TextHandler.generate_diary
  simp [h]

/-- Witness for C10 at a concrete fresh session with pending media. -/
theorem claim_C10_witness :
    (HandlerState.mk [ChatMsg.mk "system" "p" 0] [MediaInfo.mk "image" "f" "k" "m" none] true []).messages.length ≤ 1 ∧
    TextHandler.generate_diary "u"
        (HandlerState.mk [ChatMsg.mk "system" "p" 0] [MediaInfo.mk "image" "f" "k" "m" none] true [])
        "content" none "id" "2026-10-12" =
      (HandlerState.mk [ChatMsg.mk "system" "p" 0] [MediaInfo.mk "image" "f" "k" "m" none] true [],
        [.send_text "u" "还没有记录今天的事情呢，先和我聊聊今天发生了什么吧~"], 0) :=
  ⟨by decide,
    claim_C10 "u" (HandlerState.mk [ChatMsg.mk "system" "p" 0] [MediaInfo.mk "image" "f" "k" "m" none] true [])
      "content" none "id" "2026-10-12" (by decide)⟩

/-- C9: in a run over a session with the persona message and at least one
further turn, the media buffer is cleared strictly before the document
creation is attempted (the clear effect precedes the create effect in the
program-order trace) and the resulting state has an empty buffer — for
every document outcome, including the null result of a failed publish. -/
theorem claim_C9 (user_id : String) (st : HandlerState) (diary_content : String)
    (doc_result : Option PublishResult) (diary_id today : String)
    (sys : ChatMsg) (rest : List ChatMsg)
    (hm : st.messages = sys :: rest) (_hsys : sys.role = "system") (hrest : rest ≠ []) :
    (TextHandler.generate_diary user_id st diary_content doc_result diary_id today).1.media_files = [] ∧
    ∃ (t c : String) (imgs : List MediaInfo) (reply : String),
      (TextHandler.generate_diary user_id st diary_content doc_result diary_id today).2.1 =
        [Effect.llm_generate_diary, Effect.clear_media_files,
         Effect.create_diary_document t c imgs,
         Effect.send_text user_id reply, Effect.close_session] := by
  have hlen : ¬ st.messages.length ≤ 1 := by
    rw [hm]
    cases rest with
    | nil => exact absurd rfl hrest
    | cons a l => simp [List.length_cons]
  unfold TextHandler.generate_diary
  rw [if_neg hlen]
  exact ⟨rfl, _, _, _, _, rfl⟩

/-- Witness for C9: a session with one user turn and one pending image,
with the publish failing (null document result). -/
theorem claim_C9_witness :
    (HandlerState.mk [ChatMsg.mk "system" "p" 0, ChatMsg.mk "user" "hi" 1]
        [MediaInfo.mk "image" "f" "k" "m" none] true []).messages =
      ChatMsg.mk "system" "p" 0 :: [ChatMsg.mk "user" "hi" 1] ∧
    (ChatMsg.mk "system" "p" 0).role = "system" ∧
    ([ChatMsg.mk "user" "hi" 1] : List ChatMsg) ≠ [] ∧
    ((TextHandler.generate_diary "u"
        (HandlerState.mk [ChatMsg.mk "system" "p" 0, ChatMsg.mk "user" "hi" 1]
          [MediaInfo.mk "image" "f" "k" "m" none] true [])
        "content" none "id" "2026-10-12").1.media_files = [] ∧
      ∃ (t c : String) (imgs : List MediaInfo) (reply : String),
        (TextHandler.generate_diary "u"
          (HandlerState.mk [ChatMsg.mk "system" "p" 0, ChatMsg.mk "user" "hi" 1]
            [MediaInfo.mk "image" "f" "k" "m" none] true [])
          "content" none "id" "2026-10-12").2.1 =
          [Effect.llm_generate_diary, Effect.clear_media_files,
           Effect.create_diary_document t c imgs,
           Effect.send_text "u" reply, Effect.close_session]) :=
  ⟨rfl, rfl, by simp,
    claim_C9 "u" (HandlerState.mk [ChatMsg.mk "system" "p" 0, ChatMsg.mk "user" "hi" 1]
        [MediaInfo.mk "image" "f" "k" "m" none] true [])
      "content" none "id" "2026-10-12" (ChatMsg.mk "system" "p" 0) [ChatMsg.mk "user" "hi" 1]
      rfl rfl (by simp)⟩

/-- C8 counterexample: a latest user turn of exactly 100 characters that
contains the weather keyword.  It is not longer than 100 characters, so
the claim as stated demands the synthetic search note; the code requires
strictly fewer than 100 characters and sends the transcript unchanged. -/
theorem claim_C8_counterexample :
    pyIn "天气" (last_user_message
      [LlmMsg.mk "user" ("天气" ++ String.mk (List.replicate 98 'x'))]) = true ∧
    (last_user_message
      [LlmMsg.mk "user" ("天气" ++ String.mk (List.replicate 98 'x'))]).length = 100 ∧
    chat_with_internet_sent "今天是 2026年10月12日 周一"
        [LlmMsg.mk "user" ("天气" ++ String.mk (List.replicate 98 'x'))] =
      [LlmMsg.mk "user" ("天气" ++ String.mk (List.replicate 98 'x'))] := by
  refine ⟨by decide, by decide, ?_⟩
  rfl

/-- C8 amended: the synthetic search note is appended exactly when the
latest user turn contains a lookup keyword and has strictly fewer than
100 characters; otherwise (no keyword, or 100 characters or longer) the
transcript is sent unchanged. -/
theorem claim_C8_amended (dateInfo : String) (messages : List LlmMsg) :
    ((∃ kw ∈ search_keywords, pyIn kw (last_user_message messages) = true) ∧
        (last_user_message messages).length < 100 →
      chat_with_internet_sent dateInfo messages =
        messages ++ [LlmMsg.mk "system"
          ("联网搜索结果：" ++ search_web dateInfo (last_user_message messages))]) ∧
    (¬ ((∃ kw ∈ search_keywords, pyIn kw (last_user_message messages) = true) ∧
        (last_user_message messages).length < 100) →
      chat_with_internet_sent dateInfo messages = messages) := by
  unfold chat_with_internet_sent
  have hiff : (search_keywords.any (fun kw => pyIn kw (last_user_message messages)) = true) ↔
      (∃ kw ∈ search_keywords, pyIn kw (last_user_message messages) = true) :=
    List.any_eq_true
  constructor
  · rintro ⟨hkw, hlen⟩
    rw [if_pos ⟨hiff.mpr hkw, hlen⟩]
  · intro hnot
    rw [if_neg (fun hc => hnot ⟨hiff.mp hc.1, hc.2⟩)]

/-- Witness for C8 at a short weather question. -/
theorem claim_C8_witness :
    ((∃ kw ∈ search_keywords, pyIn kw (last_user_message
        [LlmMsg.mk "user" "今天天气怎么样"]) = true) ∧
      (last_user_message [LlmMsg.mk "user" "今天天气怎么样"]).length < 100) ∧
    chat_with_internet_sent "d" [LlmMsg.mk "user" "今天天气怎么样"] =
      [LlmMsg.mk "user" "今天天气怎么样"] ++ [LlmMsg.mk "system"
        ("联网搜索结果：" ++ search_web "d" (last_user_message
          [LlmMsg.mk "user" "今天天气怎么样"]))] :=
  ⟨⟨⟨"天气", by decide, by decide⟩, by decide⟩,
    (claim_C8_amended "d" [LlmMsg.mk "user" "今天天气怎么样"]).1
      ⟨⟨"天气", by decide, by decide⟩, by decide⟩⟩

theorem line_to_block_eq_spec (line : List Char) :
    line_to_block line = spec_line_rule line := by
  unfold line_to_block spec_line_rule leadingHashes
  generalize pyStripL line = l
  match l with
  | [] => rfl
  | c1 :: t1 =>
    by_cases h1 : c1 = '#'
    · subst h1
      match t1 with
      | [] => rfl
      | c2 :: t2 =>
        by_cases h2 : c2 = '#'
        · subst h2
          match t2 with
          | [] => rfl
          | c3 :: t3 =>
            by_cases h3 : c3 = '#'
            · subst h3
              match t3 with
              | [] => rfl
              | c4 :: t4 =>
                by_cases h4 : c4 = '#'
                · subst h4
                  simp [startsWithL, List.takeWhile]
                · by_cases h4s : c4 = ' '
                  · simp [startsWithL, List.takeWhile, h4, h4s]
                  · simp [startsWithL, List.takeWhile, h4, h4s, Ne.symm h4, Ne.symm h4s]
            · by_cases h3s : c3 = ' '
              · simp [startsWithL, List.takeWhile, h3, h3s]
              · simp [startsWithL, List.takeWhile, h3, h3s, Ne.symm h3, Ne.symm h3s]
        · by_cases h2s : c2 = ' '
          · simp [startsWithL, List.takeWhile, h2, h2s]
          · simp [startsWithL, List.takeWhile, h2, h2s, Ne.symm h2, Ne.symm h2s]
    · simp [startsWithL, List.takeWhile, h1, Ne.symm h1]

/-- C4 counterexample: the line hash-T-i-t-l-e starts with exactly one
leading hash mark, so the claim as stated makes it a level-1 heading; the
code requires a space after the hash marks and emits a paragraph block
carrying the whole line. -/
theorem claim_C4_counterexample :
    convert_content_to_blocks "#Title" = [Block.paragraph "#Title"] ∧
    leadingHashes (pyStripL ("#Title".data)) = 1 ∧
    ∀ t : String, Block.paragraph "#Title" ≠ Block.heading1 t :=
  ⟨rfl, rfl, fun _ h => Block.noConfusion h⟩

/-- C4 amended: the concrete round-trip example of the claim holds, and
in general the conversion is exactly the per-line rule in which a heading
requires its 1/2/3 hash marks to be followed by a space (lines without
the space, and lines with four or more hash marks, are paragraphs; blank
lines yield no block). -/
theorem claim_C4_amended :
    convert_content_to_blocks "# Title\n\nLine one\n## Sub\nLine two" =
      [Block.heading1 "Title", Block.paragraph "Line one",
       Block.heading2 "Sub", Block.paragraph "Line two"] ∧
    ∀ content : String,
      convert_content_to_blocks content =
        (splitOnChar '\n' content.data).filterMap spec_line_rule := by
  constructor
  · rfl
  · intro content
    unfold convert_content_to_blocks
    rw [show line_to_block = spec_line_rule from funext line_to_block_eq_spec]

/-- C5 counterexample: a well-formed envelope under the configured secret
key: the base64 decodes to 32 bytes (a full IV and one ciphertext block),
the decrypted block ends in the padding byte 1, which lies inside
[1, block_size] — yet the decrypt operation fails, because the stripped
plaintext is not valid UTF-8.  Under the claim as stated this envelope
matches none of the four failure conditions and would have to decrypt. -/
theorem claim_C5_counterexample :
    ¬ "test_key" = "" ∧
    (∃ bs, b64Decode envelope_garbage = some bs ∧ bs.length = 32) ∧
    (aesCbcDecrypt (sha256 (utf8Encode "test_key"))
        (((b64Decode envelope_garbage).getD []).take 16)
        (((b64Decode envelope_garbage).getD []).drop 16)).getLast? = some 1 ∧
    (1 ≤ 1 ∧ 1 ≤ AES.block_size) ∧
    AESCipher.decrypt (sha256 (utf8Encode "test_key")) envelope_garbage =
      .error .badUtf8 ∧
    decrypt_message "test_key" envelope_garbage = .error .badUtf8 := by
  refine ⟨by decide, ⟨(b64Decode envelope_garbage).getD [], ?_, ?_⟩, ?_, by decide, ?_, ?_⟩
  · rfl
  · rfl
  · rfl
  · rfl
  · rfl

/-- C5 amended: the decrypt operation fails exactly when: the secret is
not configured, the base64 input is malformed, the decoded data is too
short to contain the 16-byte IV, the ciphertext after the IV is empty or
not a multiple of the block size, the plaintext left after stripping the
unvalidated pad count is not UTF-8, or that text is not JSON.  The
padding byte itself is never range-checked: it only determines how many
trailing bytes are dropped. -/
theorem claim_C5_amended (secret s : String) :
    (∃ j, decrypt_message secret s = .ok j) ↔
      (¬ secret = "" ∧
       ∃ bs, b64Decode s = some bs ∧
         AES.block_size ≤ bs.length ∧
         (bs.length - AES.block_size) % AES.block_size = 0 ∧
         ¬ bs.length = AES.block_size ∧
         ∃ cs, utf8Decode (pyDropTail
             ((aesCbcDecrypt (sha256 (utf8Encode secret)) (bs.take AES.block_size)
                (bs.drop AES.block_size)).getLast?.getD 0)
             (aesCbcDecrypt (sha256 (utf8Encode secret)) (bs.take AES.block_size)
                (bs.drop AES.block_size))) = some cs ∧
           ¬ jsonLoads (String.mk cs) = none) := by
  unfold decrypt_message AESCipher.decrypt
  by_cases hsec : secret = ""
  · simp [hsec]
  · rw [if_neg hsec]
    cases hb : b64Decode s with
    | none => simp
    | some bs =>
      dsimp only
      by_cases hiv : (bs.take AES.block_size).length < AES.block_size
      · rw [if_pos hiv]
        rw [List.length_take] at hiv
        dsimp only
        constructor
        · rintro ⟨j, hj⟩
          cases hj
        · rintro ⟨-, bs2, hbs2, hlen, -⟩
          cases hbs2
          omega
      · rw [if_neg hiv]
        rw [List.length_take] at hiv
        have hlen16 : AES.block_size ≤ bs.length := by
          unfold AES.block_size at hiv ⊢
          omega
        by_cases hmod : ¬ (bs.drop AES.block_size).length % AES.block_size = 0
        · rw [if_pos hmod]
          rw [List.length_drop] at hmod
          dsimp only
          constructor
          · rintro ⟨j, hj⟩
            cases hj
          · rintro ⟨-, bs2, hbs2, -, hmod2, -⟩
            cases hbs2
            exact absurd hmod2 hmod
        · rw [if_neg hmod]
          rw [List.length_drop] at hmod
          push_neg at hmod
          by_cases hempty : (bs.drop AES.block_size).length = 0
          · rw [if_pos hempty]
            rw [List.length_drop] at hempty
            dsimp only
            constructor
            · rintro ⟨j, hj⟩
              cases hj
            · rintro ⟨-, bs2, hbs2, -, -, hne, -⟩
              cases hbs2
              exfalso
              unfold AES.block_size at hlen16 hempty hne
              omega
          · rw [if_neg hempty]
            rw [List.length_drop] at hempty
            cases hutf : utf8Decode (pyDropTail
                ((aesCbcDecrypt (sha256 (utf8Encode secret)) (bs.take AES.block_size)
                  (bs.drop AES.block_size)).getLast?.getD 0)
                (aesCbcDecrypt (sha256 (utf8Encode secret)) (bs.take AES.block_size)
                  (bs.drop AES.block_size))) with
            | none =>
              dsimp only
              constructor
              · rintro ⟨j, hj⟩
                cases hj
              · rintro ⟨-, bs2, hbs2, -, -, -, cs, hcs, -⟩
                cases hbs2
                rw [hutf] at hcs
                cases hcs
            | some cs =>
              dsimp only
              cases hjson : jsonLoads (String.mk cs) with
              | none =>
                constructor
                · rintro ⟨j, hj⟩
                  simp at hj
                · rintro ⟨-, bs2, hbs2, -, -, -, cs2, hcs2, hj2⟩
                  cases hbs2
                  rw [hutf] at hcs2
                  cases hcs2
                  exact absurd hjson hj2
              | some j =>
                constructor
                · intro _
                  refine ⟨hsec, bs, rfl, hlen16, by omega, ?_, cs, hutf, by simp [hjson]⟩
                  unfold AES.block_size at hlen16 hempty
                  unfold AES.block_size
                  omega
                · intro _
                  exact ⟨j, rfl⟩

/-- C1 amended: a body that fails to parse as JSON — and only such a
body — raises the client error; for every parsed body the response is
determined by the payload left after a successful decryption of an
encrypt field has replaced the body: a dict payload with a challenge key
is answered with that value echoed, and everything else — unknown event
types, failed decryptions, handler errors, non-dict payloads — with the
fixed success acknowledgment. -/
theorem claim_C1_amended (feishu_encrypt_key : String) (dedup : DedupState)
    (diaries : DiaryStore) (now : Nat) :
    (handle_event feishu_encrypt_key dedup diaries now none).response = .clientError ∧
    ∀ j : Json,
      (handle_event feishu_encrypt_key dedup diaries now (some j)).response =
        (match challenge_value (effective_payload feishu_encrypt_key j) with
         | some v => .json (.obj [("challenge", v)])
         | none => .json success_response) := by
  refine ⟨rfl, ?_⟩
  intro j
  unfold handle_event
  dsimp only
  rcases hep : effective_payload feishu_encrypt_key j with
    _ | b | n | ⟨m, e⟩ | _ | sgn | s | xs | kvs <;>
    simp only [challenge_value]
  case obj =>
    cases hk : Json.getKey kvs "challenge" <;> rfl

/-- C1 counterexample: a parsed body holding only an encrypt field — no
top-level challenge key — whose ciphertext decrypts, under the configured
secret, to the JSON object with challenge equal to 1.  The claim as
stated demands the fixed success acknowledgment for this body; the code
decrypts first and echoes the challenge. -/
theorem claim_C1_counterexample :
    challenge_value (Json.obj [("encrypt", Json.str envelope_challenge)]) = none ∧
    decrypt_message "test_key" envelope_challenge =
      .ok (Json.obj [("challenge", Json.num 1)]) ∧
    (handle_event "test_key" [] [] 0
        (some (Json.obj [("encrypt", Json.str envelope_challenge)]))).response =
      .json (Json.obj [("challenge", Json.num 1)]) ∧
    Json.beq (Json.obj [("challenge", Json.num 1)]) success_response = false :=
  ⟨rfl, rfl, rfl, rfl⟩
